import Mathlib

/-!
Verification development for the window/widget base component of the
Prusa-Firmware-Buddy GUI toolkit, embedded from
src/src/guiapi/src/window.cpp.  The window_t base class is modelled as a
state-passing system: windows are identified by natural-number ids, the
window map, the parent back-pointers and the frame child lists live in a
GuiState record together with the process-wide focus pointer, the
gui_invalidate request counter, the screen stack depth, the GUI timer
bindings, the inactivity-timeout reset counter, the event-delivery log
and the repaint log.
-/

/-- Modelled from the spec: Rect16 (guiapi rectangle type, not under src/).
A rectangle with a signed top-left corner and unsigned width and height,
as used by window_t for its parent-relative or absolute rectangle. -/
structure Rect16 where
  x : Int
  y : Int
  w : Nat
  h : Nat
deriving DecidableEq, Repr

/-- Modelled from the spec: Rect16 IsEmpty, a rectangle is empty when its
width or height is zero. -/
def Rect16.IsEmpty (r : Rect16) : Bool :=
  r.w == 0 || r.h == 0

/-- Modelled from the spec: Rect16 HasIntersection, two rectangles
intersect when both are nonempty and their interiors overlap on both
axes. -/
def Rect16.HasIntersection (a b : Rect16) : Bool :=
  !a.IsEmpty && !b.IsEmpty
    && decide (a.x < b.x + b.w) && decide (b.x < a.x + a.w)
    && decide (a.y < b.y + b.h) && decide (b.y < a.y + a.h)

/-- Modelled from the spec: Rect16 Contain, full containment of the
second rectangle in the first; an empty rectangle is contained
anywhere. -/
def Rect16.Contain (a b : Rect16) : Bool :=
  b.IsEmpty
    || (decide (a.x ≤ b.x) && decide (b.x + b.w ≤ a.x + a.w)
        && decide (a.y ≤ b.y) && decide (b.y + b.h ≤ a.y + a.h))

/-- Modelled from the spec: Rect16 Transform, used for parents with
relative subwindows; shifts a child-relative rectangle by the parent
origin. -/
def Rect16.Transform (rc this_rect : Rect16) : Rect16 :=
  { rc with x := rc.x + this_rect.x, y := rc.y + this_rect.y }

/-- Modelled from the spec: Rect16 Intersection of two rectangles; the
empty rectangle results when they do not overlap. -/
def Rect16.Intersection (a b : Rect16) : Rect16 :=
  let x1 := max a.x b.x
  let y1 := max a.y b.y
  let x2 := min (a.x + a.w) (b.x + b.w)
  let y2 := min (a.y + a.h) (b.y + b.h)
  if x1 < x2 ∧ y1 < y2 then
    { x := x1, y := y1, w := (x2 - x1).toNat, h := (y2 - y1).toNat }
  else
    { x := 0, y := 0, w := 0, h := 0 }

/-- The default-constructed Rect16(), the default argument of Invalidate
and Validate: the empty rectangle, meaning the whole window. -/
def Rect16.default : Rect16 := { x := 0, y := 0, w := 0, h := 0 }

/-- win_type_t: the type tag stored in the window flag bitfield. -/
inductive win_type_t where
  | normal
  | dialog
  | popup
  | strong_dialog
deriving DecidableEq, Repr

/-- is_closed_on_click_t: the click-close policy passed to the window_t
constructor. -/
inductive is_closed_on_click_t where
  | no
  | yes
deriving DecidableEq, Repr

/-- GUI_event_t: the window events relevant to the window_t base class. -/
inductive GUI_event_t where
  | CLICK
  | HOLD
  | FOCUS0
  | FOCUS1
  | ENC_UP
  | ENC_DN
  | ENC_CHANGE
  | BTN_DN
  | BTN_UP
deriving DecidableEq, Repr

/-- The per-window flag bitfield of window_t (window_flags), restricted
to the fields window.cpp reads or writes. -/
structure WindowFlags where
  visible : Bool
  enabled : Bool
  invalid : Bool
  timer : Bool
  hidden_behind_dialog : Bool
  enforce_capture_when_not_visible : Bool
  shadow : Bool
  has_relative_subwins : Bool
  close_on_click : is_closed_on_click_t
  type : win_type_t
deriving DecidableEq, Repr

/-- flags(0): the all-clear bitfield produced by the constructor before
the individual fields are assigned. -/
def WindowFlags.zero : WindowFlags :=
  { visible := false
    enabled := false
    invalid := false
    timer := false
    hidden_behind_dialog := false
    enforce_capture_when_not_visible := false
    shadow := false
    has_relative_subwins := false
    close_on_click := is_closed_on_click_t.no
    type := win_type_t.normal }

/-- The per-window data of window_t: the flag bitfield and the raw stored
rectangle. -/
structure Window where
  flags : WindowFlags
  rect : Rect16
deriving DecidableEq, Repr

/-- Window ids stand in for window_t pointers; distinct ids are distinct
windows. -/
abbrev WinId := Nat

/-- The global state of the windowing system: the window map, the parent
back-pointers, the frame child lists, the static focused_ptr, the count
of gui_invalidate repaint requests, the screen stack depth, the GUI
timer bindings, the count of Screens ResetTimeout calls, the log of
delivered window events and the log of unconditionalDraw repaints. -/
structure GuiState where
  windows : WinId → Window
  parent : WinId → Option WinId
  children : WinId → List WinId
  focused : Option WinId
  guiInvalidateCalls : Nat
  screenStackLen : Nat
  timerBound : WinId → Bool
  timeoutResets : Nat
  events : List (WinId × GUI_event_t)
  drawn : List WinId

/-- Replaces the window stored at one id. -/
def GuiState.setWin (s : GuiState) (id : WinId) (wnew : Window) : GuiState :=
  { s with windows := fun j => if j = id then wnew else s.windows j }

/-- gui_invalidate(): requests a global repaint pass. -/
def gui_invalidate (s : GuiState) : GuiState :=
  { s with guiInvalidateCalls := s.guiInvalidateCalls + 1 }

/-- Modelled from the spec: Screens Access Close pops the global screen
stack (the root screen may pop itself). -/
def Screens_Close (s : GuiState) : GuiState :=
  { s with screenStackLen := s.screenStackLen - 1 }

/-- Modelled from the spec: Screens Access ResetTimeout resets the screen
manager inactivity timeout; counted. -/
def Screens_ResetTimeout (s : GuiState) : GuiState :=
  { s with timeoutResets := s.timeoutResets + 1 }

/-- Modelled from the spec: gui_timers_delete_by_window cancels any
pending GUI timer bound to the given window. -/
def gui_timers_delete_by_window (s : GuiState) (id : WinId) : GuiState :=
  { s with timerBound := fun j => if j = id then false else s.timerBound j }

/-- window_t IsVisible: the visible flag is set and the window is not
hidden behind a dialog. -/
def Window.IsVisible (w : Window) : Bool :=
  w.flags.visible && !w.flags.hidden_behind_dialog

/-- window_t HasVisibleFlag. -/
def Window.HasVisibleFlag (w : Window) : Bool := w.flags.visible

/-- window_t IsHiddenBehindDialog. -/
def Window.IsHiddenBehindDialog (w : Window) : Bool := w.flags.hidden_behind_dialog

/-- window_t IsEnabled. -/
def Window.IsEnabled (w : Window) : Bool := w.flags.enabled

/-- window_t IsInvalid. -/
def Window.IsInvalid (w : Window) : Bool := w.flags.invalid

/-- window_t IsFocused: compares the static focused_ptr with this. -/
def IsFocused (s : GuiState) (id : WinId) : Bool :=
  s.focused == some id

/-- The virtual window_t invalidate: sets the invalid flag (a frame would
also invalidate children). -/
def invalidate_virt (s : GuiState) (id : WinId) (_invalidation_rect : Rect16) : GuiState :=
  let w := s.windows id
  s.setWin id { w with flags := { w.flags with invalid := true } }

/-- window_t Invalidate: if the invalidation rectangle is empty or
intersects the raw stored rectangle, run the virtual invalidate and
request a global repaint pass. -/
def Invalidate (s : GuiState) (id : WinId) (invalidation_rect : Rect16) : GuiState :=
  if invalidation_rect.IsEmpty || (s.windows id).rect.HasIntersection invalidation_rect then
    gui_invalidate (invalidate_virt s id invalidation_rect)
  else s

/-- The virtual window_t validate: clears nothing further at the base
class (a frame would validate children). -/
def validate_virt (s : GuiState) (_id : WinId) (_validation_rect : Rect16) : GuiState := s

/-- window_t Validate: if the validation rectangle is empty or intersects
the raw stored rectangle, clear the invalid flag and run the virtual
validate. -/
def Validate (s : GuiState) (id : WinId) (validation_rect : Rect16) : GuiState :=
  if validation_rect.IsEmpty || (s.windows id).rect.HasIntersection validation_rect then
    let w := s.windows id
    validate_virt (s.setWin id { w with flags := { w.flags with invalid := false } }) id validation_rect
  else s

/-- window_t GetRect: the stored rectangle transformed through the parent
via TransformRect; the parent chain is walked with explicit fuel because
the raw back-pointers could in principle form a cycle.  TransformRect on
the parent intersects with or shifts by the parent rectangle depending on
its has_relative_subwins flag. -/
def GetRectFuel : Nat → GuiState → WinId → Rect16
  | 0, s, id => (s.windows id).rect
  | fuel + 1, s, id =>
    match s.parent id with
    | none => (s.windows id).rect
    | some p =>
      let this_rect := GetRectFuel fuel s p
      if (s.windows p).flags.has_relative_subwins then
        Rect16.Transform (s.windows id).rect this_rect
      else
        Rect16.Intersection (s.windows id).rect this_rect

/-- The EventLock debug entry of WindowEvent, modelled as appending the
delivered event to the event log. -/
def logEvent (s : GuiState) (id : WinId) (ev : GUI_event_t) : GuiState :=
  { s with events := s.events ++ [(id, ev)] }

/-- window_t WindowEvent and the private virtual windowEvent: the event
is logged, and a CLICK on a window with a parent either closes the top
screen (close_on_click policy yes) or is re-sent to the parent; every
other event is unhandled at the base class.  Fuel bounds the bubble-up
recursion along the raw parent pointers. -/
def WindowEventFuel : Nat → GuiState → WinId → GUI_event_t → GuiState
  | 0, s, id, ev =>
    if ev = GUI_event_t.CLICK then
      match s.parent id with
      | some _ =>
        if (s.windows id).flags.close_on_click = is_closed_on_click_t.yes then
          Screens_Close (logEvent s id ev)
        else logEvent s id ev
      | none => logEvent s id ev
    else logEvent s id ev
  | fuel + 1, s, id, ev =>
    if ev = GUI_event_t.CLICK then
      match s.parent id with
      | some p =>
        if (s.windows id).flags.close_on_click = is_closed_on_click_t.yes then
          Screens_Close (logEvent s id ev)
        else WindowEventFuel fuel (logEvent s id ev) p ev
      | none => logEvent s id ev
    else logEvent s id ev

/-- window_t SetFocus: returns early when the window is not effectively
visible or not enabled, or already holds focus; otherwise invalidates
and notifies the previous holder with FOCUS0, moves focused_ptr here,
invalidates, emits FOCUS1 and requests a repaint. -/
def SetFocus (s : GuiState) (id : WinId) : GuiState :=
  if !(s.windows id).IsVisible || !(s.windows id).flags.enabled then s
  else if s.focused == some id then s
  else
    let s1 :=
      match s.focused with
      | some prev => WindowEventFuel 0 (Invalidate s prev Rect16.default) prev GUI_event_t.FOCUS0
      | none => s
    let s2 := { s1 with focused := some id }
    let s3 := Invalidate s2 id Rect16.default
    let s4 := WindowEventFuel 0 s3 id GUI_event_t.FOCUS1
    gui_invalidate s4

/-- window_t ShowAfterDialog: clears the hidden-behind-dialog flag (only
that flag) and invalidates, when it was set. -/
def ShowAfterDialog (s : GuiState) (id : WinId) : GuiState :=
  if (s.windows id).flags.hidden_behind_dialog then
    let w := s.windows id
    Invalidate (s.setWin id { w with flags := { w.flags with hidden_behind_dialog := false } })
      id Rect16.default
  else s

/-- window_t HideBehindDialog: sets the hidden-behind-dialog flag (only
that flag) and invalidates, when it was clear. -/
def HideBehindDialog (s : GuiState) (id : WinId) : GuiState :=
  if !(s.windows id).flags.hidden_behind_dialog then
    let w := s.windows id
    Invalidate (s.setWin id { w with flags := { w.flags with hidden_behind_dialog := true } })
      id Rect16.default
  else s

/-- window_t unconditionalDraw: repaints the window (display FillRect);
modelled as appending the window to the repaint log. -/
def unconditionalDraw (s : GuiState) (id : WinId) : GuiState :=
  { s with drawn := s.drawn ++ [id] }

/-- The virtual window_t draw (and the public Draw): when the window is
invalid and its raw rectangle has nonzero width and height, repaint it if
it is effectively visible, then Validate it with the default empty
rectangle. -/
def draw (s : GuiState) (id : WinId) : GuiState :=
  let w := s.windows id
  if w.IsInvalid && !(w.rect.w == 0) && !(w.rect.h == 0) then
    let s1 := if w.IsVisible then unconditionalDraw s id else s
    Validate s1 id Rect16.default
  else s

/-- window_t addInvalidationRect: a plain window cannot store the
rectangle, so it invalidates the entire window, unless its own raw
rectangle is empty. -/
def addInvalidationRect (s : GuiState) (id : WinId) (_rc : Rect16) : GuiState :=
  if !(s.windows id).rect.IsEmpty then Invalidate s id Rect16.default else s

/-- Modelled from the spec: the virtual registerSubWin of a frame,
which the base window_t stubs to false; the frame appends the child to
its singly-linked child list and succeeds. -/
def registerSubWin_frame (s : GuiState) (pid cid : WinId) : GuiState × Bool :=
  ({ s with children := fun j => if j = pid then s.children pid ++ [cid] else s.children j }, true)

/-- window_t RegisterSubWin: fails unless the child rectangle (GetRect)
is fully contained in the parent rectangle; on containment, propagates
the relative-subwins flag to the child, resets the inactivity timeout
and runs the virtual registerSubWin (here the frame child-list
insertion). -/
def RegisterSubWin (fuel : Nat) (s : GuiState) (pid cid : WinId) : GuiState × Bool :=
  if !(Rect16.Contain (GetRectFuel fuel s pid) (GetRectFuel fuel s cid)) then
    (s, false)
  else
    let s1 :=
      if (s.windows pid).flags.has_relative_subwins then
        let w := s.windows cid
        s.setWin cid { w with flags := { w.flags with has_relative_subwins := true } }
      else s
    let s2 := Screens_ResetTimeout s1
    registerSubWin_frame s2 pid cid

/-- Modelled from the spec: the virtual unregisterSubWin of a frame,
which the base window_t stubs to a no-op; the frame removes the child
from its singly-linked child list. -/
def unregisterSubWin_frame (s : GuiState) (pid cid : WinId) : GuiState :=
  { s with children := fun j => if j = pid then (s.children pid).erase cid else s.children j }

/-- window_t UnregisterSubWin: ignores a window whose parent pointer is
not this; otherwise invalidates the vacated rectangle, removes the child
from the child list and resets the inactivity timeout. -/
def UnregisterSubWin (fuel : Nat) (s : GuiState) (pid cid : WinId) : GuiState :=
  if s.parent cid ≠ some pid then s
  else
    let s1 := addInvalidationRect s pid (GetRectFuel fuel s cid)
    let s2 := unregisterSubWin_frame s1 pid cid
    Screens_ResetTimeout s2

/-- The initializer list and body of the window_t constructor up to the
parent registration: the window record is created with flags(0), the
type tag, the click-close policy, Enable or Disable according to that
policy, the visible flag set, and is then invalidated with the default
empty rectangle. -/
def ctorInit (s : GuiState) (id : WinId) (par : Option WinId) (rc : Rect16)
    (ty : win_type_t) (close : is_closed_on_click_t) : GuiState :=
  let fl : WindowFlags :=
    { WindowFlags.zero with
      type := ty
      close_on_click := close
      enabled := close = is_closed_on_click_t.yes
      visible := true }
  let s1 :=
    { s with
      windows := fun j => if j = id then { flags := fl, rect := rc } else s.windows j
      parent := fun j => if j = id then par else s.parent j }
  Invalidate s1 id Rect16.default

/-- The window_t constructor: after ctorInit, a non-null parent pointer
triggers parent RegisterSubWin on the new window. -/
def window_t_ctor (fuel : Nat) (s : GuiState) (id : WinId) (par : Option WinId)
    (rc : Rect16) (ty : win_type_t) (close : is_closed_on_click_t) : GuiState :=
  let s1 := ctorInit s id par rc ty close
  match par with
  | some p => (RegisterSubWin fuel s1 p id).1
  | none => s1

/-- The window_t destructor: deletes the GUI timers bound to this window,
clears the static focused_ptr if this window held focus, unregisters
from the parent when there is one, and resets the screen manager
inactivity timeout. -/
def window_t_dtor (fuel : Nat) (s : GuiState) (id : WinId) : GuiState :=
  let s1 := gui_timers_delete_by_window s id
  let s2 := if s1.focused == some id then { s1 with focused := none } else s1
  let s3 :=
    match s2.parent id with
    | some p => UnregisterSubWin fuel s2 p id
    | none => s2
  Screens_ResetTimeout s3

/-! Concrete example states used by the witness and counterexample
theorems. -/

/-- A default window: all flags clear, empty rectangle. -/
def exWindow : Window := { flags := WindowFlags.zero, rect := Rect16.default }

/-- A base system state: default windows everywhere, no parents, no
children, nothing focused, one screen on the stack. -/
def exState : GuiState :=
  { windows := fun _ => exWindow
    parent := fun _ => none
    children := fun _ => []
    focused := none
    guiInvalidateCalls := 0
    screenStackLen := 1
    timerBound := fun _ => false
    timeoutResets := 0
    events := []
    drawn := [] }

/-- A state in which window 0 holds focus. -/
def exFocusState : GuiState := { exState with focused := some 0 }

/-- A state in which every window is visible and enabled and nothing is
focused. -/
def exEnabledState : GuiState :=
  { exState with
    windows := fun _ =>
      { flags := { WindowFlags.zero with visible := true, enabled := true }
        rect := Rect16.default } }

/-- A state in which window 0 has parent 1 and the close-on-click policy
yes. -/
def exClickYesState : GuiState :=
  { exState with
    windows := fun _ =>
      { flags := { WindowFlags.zero with close_on_click := is_closed_on_click_t.yes }
        rect := Rect16.default }
    parent := fun j => if j = 0 then some 1 else none }

/-- A state in which window 0 has parent 1 and the close-on-click policy
no. -/
def exClickNoState : GuiState :=
  { exState with parent := fun j => if j = 0 then some 1 else none }

/-- A state in which window 0 is valid and has a 10 by 10 rectangle at
the origin. -/
def exInvState : GuiState :=
  { exState with
    windows := fun _ =>
      { flags := WindowFlags.zero, rect := { x := 0, y := 0, w := 10, h := 10 } } }

/-- A rectangle disjoint from the 10 by 10 rectangle at the origin. -/
def exFarRect : Rect16 := { x := 100, y := 100, w := 5, h := 5 }

/-- A state in which window 0 is invalid, has a 1 by 1 rectangle and is
not visible. -/
def exDrawHiddenState : GuiState :=
  { exState with
    windows := fun _ =>
      { flags := { WindowFlags.zero with invalid := true }
        rect := { x := 0, y := 0, w := 1, h := 1 } } }

/-- A state in which window 0 is invalid, has a 1 by 1 rectangle and is
visible. -/
def exDrawVisState : GuiState :=
  { exState with
    windows := fun _ =>
      { flags := { WindowFlags.zero with invalid := true, visible := true }
        rect := { x := 0, y := 0, w := 1, h := 1 } } }

/-- A state in which window 0 has a large rectangle and window 1 a small
contained one. -/
def exRegGoodState : GuiState :=
  { exState with
    windows := fun j =>
      if j = 0 then { flags := WindowFlags.zero, rect := { x := 0, y := 0, w := 10, h := 10 } }
      else { flags := WindowFlags.zero, rect := { x := 2, y := 2, w := 3, h := 3 } } }

/-- A state in which window 0 has a small rectangle and window 1 a larger
one that is not contained in it. -/
def exRegBadState : GuiState :=
  { exState with
    windows := fun j =>
      if j = 0 then { flags := WindowFlags.zero, rect := { x := 0, y := 0, w := 2, h := 2 } }
      else { flags := WindowFlags.zero, rect := { x := 0, y := 0, w := 5, h := 5 } } }

/-- A state in which window 1 is a registered child of window 0, holds
focus and has a GUI timer bound to it. -/
def exDtorState : GuiState :=
  { exState with
    parent := fun j => if j = 1 then some 0 else none
    children := fun j => if j = 0 then [1] else []
    focused := some 1
    timerBound := fun j => j = 1 }

/-! Preservation lemmas for the state-passing operations. -/

/-- Invalidate only touches the invalid flag of the target window and the
repaint request counter. -/
theorem Invalidate_preserves (s : GuiState) (id : WinId) (r : Rect16) (j : WinId) :
    ((Invalidate s id r).windows j).flags.visible = (s.windows j).flags.visible
  ∧ ((Invalidate s id r).windows j).flags.hidden_behind_dialog
      = (s.windows j).flags.hidden_behind_dialog
  ∧ ((Invalidate s id r).windows j).flags.enabled = (s.windows j).flags.enabled
  ∧ (Invalidate s id r).focused = s.focused
  ∧ (Invalidate s id r).children = s.children
  ∧ (Invalidate s id r).parent = s.parent
  ∧ (Invalidate s id r).timerBound = s.timerBound
  ∧ (Invalidate s id r).timeoutResets = s.timeoutResets
  ∧ (Invalidate s id r).drawn = s.drawn := by
  unfold Invalidate gui_invalidate invalidate_virt GuiState.setWin
  split
  · refine ⟨?_, ?_, ?_, rfl, rfl, rfl, rfl, rfl, rfl⟩ <;>
      · by_cases hj : j = id <;> simp [hj]
  · exact ⟨rfl, rfl, rfl, rfl, rfl, rfl, rfl, rfl, rfl⟩

/-- The event dispatcher never moves focus, never touches windows,
parents, children, timers, the timeout counter or the repaint log. -/
theorem WindowEventFuel_preserves (fuel : Nat) :
    ∀ (s : GuiState) (id : WinId) (ev : GUI_event_t),
    (WindowEventFuel fuel s id ev).focused = s.focused
  ∧ (WindowEventFuel fuel s id ev).windows = s.windows
  ∧ (WindowEventFuel fuel s id ev).parent = s.parent
  ∧ (WindowEventFuel fuel s id ev).children = s.children
  ∧ (WindowEventFuel fuel s id ev).timerBound = s.timerBound
  ∧ (WindowEventFuel fuel s id ev).timeoutResets = s.timeoutResets
  ∧ (WindowEventFuel fuel s id ev).drawn = s.drawn
  ∧ (WindowEventFuel fuel s id ev).guiInvalidateCalls = s.guiInvalidateCalls := by
  induction fuel with
  | zero =>
    intro s id ev
    unfold WindowEventFuel
    repeat' split
    all_goals exact ⟨rfl, rfl, rfl, rfl, rfl, rfl, rfl, rfl⟩
  | succ fuel ih =>
    intro s id ev
    unfold WindowEventFuel
    repeat' split
    all_goals
      first
        | exact ⟨rfl, rfl, rfl, rfl, rfl, rfl, rfl, rfl⟩
        | exact ih _ _ _

/-- Invalidate leaves the visible flag of every window unchanged. -/
theorem Invalidate_visible (s : GuiState) (id : WinId) (r : Rect16) (j : WinId) :
    ((Invalidate s id r).windows j).flags.visible = (s.windows j).flags.visible :=
  (Invalidate_preserves s id r j).1

/-- Invalidate leaves the hidden-behind-dialog flag of every window
unchanged. -/
theorem Invalidate_hidden (s : GuiState) (id : WinId) (r : Rect16) (j : WinId) :
    ((Invalidate s id r).windows j).flags.hidden_behind_dialog
      = (s.windows j).flags.hidden_behind_dialog :=
  (Invalidate_preserves s id r j).2.1

/-- Invalidate leaves the enabled flag of every window unchanged. -/
theorem Invalidate_enabled (s : GuiState) (id : WinId) (r : Rect16) (j : WinId) :
    ((Invalidate s id r).windows j).flags.enabled = (s.windows j).flags.enabled :=
  (Invalidate_preserves s id r j).2.2.1

/-- Invalidate leaves the focused pointer unchanged. -/
theorem Invalidate_focused (s : GuiState) (id : WinId) (r : Rect16) :
    (Invalidate s id r).focused = s.focused :=
  (Invalidate_preserves s id r 0).2.2.2.1

/-- Invalidate leaves the child lists unchanged. -/
theorem Invalidate_children (s : GuiState) (id : WinId) (r : Rect16) :
    (Invalidate s id r).children = s.children :=
  (Invalidate_preserves s id r 0).2.2.2.2.1

/-- Invalidate leaves the parent pointers unchanged. -/
theorem Invalidate_parent (s : GuiState) (id : WinId) (r : Rect16) :
    (Invalidate s id r).parent = s.parent :=
  (Invalidate_preserves s id r 0).2.2.2.2.2.1

/-- Invalidate leaves the timer bindings unchanged. -/
theorem Invalidate_timerBound (s : GuiState) (id : WinId) (r : Rect16) :
    (Invalidate s id r).timerBound = s.timerBound :=
  (Invalidate_preserves s id r 0).2.2.2.2.2.2.1

/-- Invalidate leaves the timeout reset counter unchanged. -/
theorem Invalidate_timeoutResets (s : GuiState) (id : WinId) (r : Rect16) :
    (Invalidate s id r).timeoutResets = s.timeoutResets :=
  (Invalidate_preserves s id r 0).2.2.2.2.2.2.2.1

/-- Invalidate leaves the repaint log unchanged. -/
theorem Invalidate_drawn (s : GuiState) (id : WinId) (r : Rect16) :
    (Invalidate s id r).drawn = s.drawn :=
  (Invalidate_preserves s id r 0).2.2.2.2.2.2.2.2

/-- The event dispatcher leaves the focused pointer unchanged. -/
theorem WEF_focused (fuel : Nat) (s : GuiState) (id : WinId) (ev : GUI_event_t) :
    (WindowEventFuel fuel s id ev).focused = s.focused :=
  (WindowEventFuel_preserves fuel s id ev).1

/-- The event dispatcher leaves the window map unchanged. -/
theorem WEF_windows (fuel : Nat) (s : GuiState) (id : WinId) (ev : GUI_event_t) :
    (WindowEventFuel fuel s id ev).windows = s.windows :=
  (WindowEventFuel_preserves fuel s id ev).2.1

/-- Claim C3 counterexample: window 0 has a 10 by 10 rectangle, and the
default-constructed empty rectangle does not intersect it, yet
Invalidate with that rectangle still marks the window dirty and requests
a repaint pass. -/
theorem C3_cex :
    Rect16.HasIntersection (exInvState.windows 0).rect Rect16.default = false
  ∧ (exInvState.windows 0).flags.invalid = false
  ∧ ((Invalidate exInvState 0 Rect16.default).windows 0).flags.invalid = true
  ∧ (Invalidate exInvState 0 Rect16.default).guiInvalidateCalls
      = exInvState.guiInvalidateCalls + 1 :=
  ⟨by decide, by decide, by decide, by decide⟩

/-- Claim C3 (amended): Invalidate marks the window dirty and requests a
global repaint pass when the invalidation rectangle is empty (the
default, meaning the whole window) or intersects the window rectangle;
when the rectangle is nonempty and disjoint from the window rectangle
the state is left completely unchanged. -/
theorem C3_invalidate (s : GuiState) (id : WinId) (r : Rect16) :
    ((r.IsEmpty || (s.windows id).rect.HasIntersection r) = true →
       ((Invalidate s id r).windows id).flags.invalid = true
     ∧ (Invalidate s id r).guiInvalidateCalls = s.guiInvalidateCalls + 1)
  ∧ ((r.IsEmpty || (s.windows id).rect.HasIntersection r) = false →
       Invalidate s id r = s) := by
  constructor
  · intro h
    unfold Invalidate gui_invalidate invalidate_virt GuiState.setWin
    simp [h]
  · intro h
    unfold Invalidate
    simp [h]

/-- Witness for the amended claim C3 at concrete inputs: the empty
rectangle invalidates window 0, and a far-away rectangle leaves the
state unchanged. -/
theorem C3_witness :
    (((Invalidate exInvState 0 Rect16.default).windows 0).flags.invalid = true
     ∧ (Invalidate exInvState 0 Rect16.default).guiInvalidateCalls
         = exInvState.guiInvalidateCalls + 1)
  ∧ Invalidate exInvState 0 exFarRect = exInvState :=
  ⟨(C3_invalidate exInvState 0 Rect16.default).1 (by decide),
   (C3_invalidate exInvState 0 exFarRect).2 (by decide)⟩

/-- Claim C4 counterexample: window 0 is invalid and has a 1 by 1
rectangle but is not visible; draw does not repaint it and nevertheless
marks it valid, against the claim that widgets failing one of the three
conditions are not marked valid. -/
theorem C4_cex :
    (exDrawHiddenState.windows 0).IsVisible = false
  ∧ (exDrawHiddenState.windows 0).IsInvalid = true
  ∧ ((exDrawHiddenState.windows 0).rect.w == 0) = false
  ∧ ((exDrawHiddenState.windows 0).rect.h == 0) = false
  ∧ (draw exDrawHiddenState 0).drawn = exDrawHiddenState.drawn
  ∧ ((draw exDrawHiddenState 0).windows 0).flags.invalid = false :=
  ⟨by decide, by decide, by decide, by decide, by decide, by decide⟩

/-- Claim C4 (amended): draw repaints exactly the widgets that are
invalid, of nonzero width and height, and effectively visible; it marks
valid every widget that is invalid and of nonzero size, visible or not;
a widget that is valid or of zero size is left completely unchanged. -/
theorem C4_draw (s : GuiState) (id : WinId) :
    (((s.windows id).IsInvalid && !((s.windows id).rect.w == 0)
        && !((s.windows id).rect.h == 0)) = true →
       ((s.windows id).IsVisible = true → (draw s id).drawn = s.drawn ++ [id])
     ∧ ((s.windows id).IsVisible = false → (draw s id).drawn = s.drawn)
     ∧ ((draw s id).windows id).flags.invalid = false)
  ∧ (((s.windows id).IsInvalid && !((s.windows id).rect.w == 0)
        && !((s.windows id).rect.h == 0)) = false →
       draw s id = s) := by
  constructor
  · intro h
    refine ⟨?_, ?_, ?_⟩
    · intro hv
      unfold draw unconditionalDraw Validate validate_virt GuiState.setWin
      simp [h, hv, Rect16.IsEmpty, Rect16.default]
    · intro hv
      unfold draw unconditionalDraw Validate validate_virt GuiState.setWin
      simp [h, hv, Rect16.IsEmpty, Rect16.default]
    · unfold draw unconditionalDraw Validate validate_virt GuiState.setWin
      simp [h, Rect16.IsEmpty, Rect16.default]
  · intro h
    unfold draw
    simp [h]

/-- Witness for the amended claim C4 at concrete inputs: an invalid,
visible 1 by 1 window is repainted and validated; a valid window is left
unchanged. -/
theorem C4_witness :
    ((draw exDrawVisState 0).drawn = exDrawVisState.drawn ++ [0]
     ∧ ((draw exDrawVisState 0).windows 0).flags.invalid = false)
  ∧ draw exState 0 = exState :=
  ⟨⟨((C4_draw exDrawVisState 0).1 (by decide)).1 (by decide),
    ((C4_draw exDrawVisState 0).1 (by decide)).2.2⟩,
   (C4_draw exState 0).2 (by decide)⟩

/-- Claim C5: RegisterSubWin succeeds only if the child rectangle is
fully contained in the parent rectangle; when containment fails it
returns false and registers nothing, leaving the state untouched. -/
theorem C5_RegisterSubWin (fuel : Nat) (s : GuiState) (pid cid : WinId) :
    ((RegisterSubWin fuel s pid cid).2 = true →
       Rect16.Contain (GetRectFuel fuel s pid) (GetRectFuel fuel s cid) = true)
  ∧ (Rect16.Contain (GetRectFuel fuel s pid) (GetRectFuel fuel s cid) = false →
       RegisterSubWin fuel s pid cid = (s, false)) := by
  constructor
  · intro h
    by_cases hc : Rect16.Contain (GetRectFuel fuel s pid) (GetRectFuel fuel s cid) = true
    · exact hc
    · exfalso
      rw [Bool.not_eq_true] at hc
      unfold RegisterSubWin at h
      simp [hc] at h
  · intro h
    unfold RegisterSubWin
    simp [h]

/-- Witness for claim C5 at concrete inputs: a contained child registers
successfully, and a non-contained child is rejected with the state
unchanged. -/
theorem C5_witness :
    Rect16.Contain (GetRectFuel 0 exRegGoodState 0) (GetRectFuel 0 exRegGoodState 1) = true
  ∧ RegisterSubWin 0 exRegBadState 0 1 = (exRegBadState, false) :=
  ⟨(C5_RegisterSubWin 0 exRegGoodState 0 1).1 (by decide),
   (C5_RegisterSubWin 0 exRegBadState 0 1).2 (by decide)⟩

/-- Claim C8: IsVisible holds exactly when the visible flag is set and
the hidden-behind-dialog flag is clear; ShowAfterDialog and
HideBehindDialog leave the visible flag of every window unchanged while
clearing respectively setting the hidden-behind-dialog flag of the
target. -/
theorem C8_visibility (w : Window) (s : GuiState) (id j : WinId) :
    (w.IsVisible = true ↔ w.flags.visible = true ∧ w.flags.hidden_behind_dialog = false)
  ∧ ((ShowAfterDialog s id).windows j).flags.visible = (s.windows j).flags.visible
  ∧ ((HideBehindDialog s id).windows j).flags.visible = (s.windows j).flags.visible
  ∧ ((ShowAfterDialog s id).windows id).flags.hidden_behind_dialog = false
  ∧ ((HideBehindDialog s id).windows id).flags.hidden_behind_dialog = true := by
  refine ⟨?_, ?_, ?_, ?_, ?_⟩
  · simp [Window.IsVisible]
  · unfold ShowAfterDialog
    split
    · rw [Invalidate_visible]
      by_cases hj : j = id <;> simp [GuiState.setWin, hj]
    · rfl
  · unfold HideBehindDialog
    split
    · rw [Invalidate_visible]
      by_cases hj : j = id <;> simp [GuiState.setWin, hj]
    · rfl
  · unfold ShowAfterDialog
    split
    · rw [Invalidate_hidden]
      simp [GuiState.setWin]
    · rename_i h
      simpa using h
  · unfold HideBehindDialog
    split
    · rw [Invalidate_hidden]
      simp [GuiState.setWin]
    · rename_i h
      simpa using h

/-- Claim C9: SetFocus is a complete no-op when the window is not
effectively visible, or not enabled, or already holds the focus: the
whole state, including the focused pointer, all window flags and the
event log, is returned unchanged. -/
theorem C9_SetFocus_noop (s : GuiState) (id : WinId)
    (h : (s.windows id).IsVisible = false ∨ (s.windows id).flags.enabled = false
         ∨ s.focused = some id) :
    SetFocus s id = s := by
  unfold SetFocus
  rcases h with h | h | h
  · simp [h]
  · simp [h]
  · simp [h]

/-- Witness for claim C9 at a concrete input: window 0 of the base state
is not visible, so SetFocus leaves the state unchanged. -/
theorem C9_witness : SetFocus exState 0 = exState :=
  C9_SetFocus_noop exState 0 (Or.inl (by decide))

/-- The virtual registerSubWin pipeline of RegisterSubWin leaves the
enabled flag of every window unchanged. -/
theorem RegisterSubWin_enabled (fuel : Nat) (s : GuiState) (pid cid j : WinId) :
    ((RegisterSubWin fuel s pid cid).1.windows j).flags.enabled
      = (s.windows j).flags.enabled := by
  unfold RegisterSubWin registerSubWin_frame Screens_ResetTimeout GuiState.setWin
  repeat' split
  all_goals first
    | rfl
    | (by_cases hj : j = cid <;> simp [hj])

/-- The window record produced by the constructor initializer list and
the initial Invalidate. -/
theorem ctorInit_windows (s : GuiState) (id : WinId) (par : Option WinId) (rc : Rect16)
    (ty : win_type_t) (close : is_closed_on_click_t) :
    (ctorInit s id par rc ty close).windows id
      = { flags :=
            { visible := true
              enabled := decide (close = is_closed_on_click_t.yes)
              invalid := true
              timer := false
              hidden_behind_dialog := false
              enforce_capture_when_not_visible := false
              shadow := false
              has_relative_subwins := false
              close_on_click := close
              type := ty }
          rect := rc } := by
  unfold ctorInit Invalidate gui_invalidate invalidate_virt GuiState.setWin WindowFlags.zero
  simp [Rect16.IsEmpty, Rect16.default]

/-- Claim C10: a window constructed with the close-on-click policy yes
starts enabled, and a window constructed with any other policy value
starts disabled. -/
theorem C10_ctor_enabled (fuel : Nat) (s : GuiState) (id : WinId) (par : Option WinId)
    (rc : Rect16) (ty : win_type_t) (close : is_closed_on_click_t) :
    ((window_t_ctor fuel s id par rc ty close).windows id).flags.enabled = true
      ↔ close = is_closed_on_click_t.yes := by
  unfold window_t_ctor
  cases par with
  | none =>
    rw [ctorInit_windows]
    simp
  | some p =>
    rw [RegisterSubWin_enabled, ctorInit_windows]
    simp

/-- UnregisterSubWin leaves the focused pointer unchanged. -/
theorem UnregisterSubWin_focused (fuel : Nat) (s : GuiState) (pid cid : WinId) :
    (UnregisterSubWin fuel s pid cid).focused = s.focused := by
  unfold UnregisterSubWin addInvalidationRect unregisterSubWin_frame Screens_ResetTimeout
  repeat' split
  all_goals simp [Invalidate_focused]

/-- UnregisterSubWin leaves the timer bindings unchanged. -/
theorem UnregisterSubWin_timerBound (fuel : Nat) (s : GuiState) (pid cid : WinId) :
    (UnregisterSubWin fuel s pid cid).timerBound = s.timerBound := by
  unfold UnregisterSubWin addInvalidationRect unregisterSubWin_frame Screens_ResetTimeout
  repeat' split
  all_goals simp [Invalidate_timerBound]

/-- UnregisterSubWin never decreases the timeout reset counter. -/
theorem UnregisterSubWin_timeoutResets (fuel : Nat) (s : GuiState) (pid cid : WinId) :
    s.timeoutResets ≤ (UnregisterSubWin fuel s pid cid).timeoutResets := by
  unfold UnregisterSubWin addInvalidationRect unregisterSubWin_frame Screens_ResetTimeout
  repeat' split
  all_goals simp [Invalidate_timeoutResets]

/-- A number bounded by the timeout counter stays strictly below the
counter after UnregisterSubWin followed by one more reset. -/
theorem UnregisterSubWin_timeoutResets_lt (fuel : Nat) (s : GuiState) (pid cid : WinId)
    (n : Nat) (h : n ≤ s.timeoutResets) :
    n < (UnregisterSubWin fuel s pid cid).timeoutResets + 1 :=
  Nat.lt_succ_of_le (le_trans h (UnregisterSubWin_timeoutResets fuel s pid cid))

/-- When the child points at the parent, UnregisterSubWin removes it from
the parent child list. -/
theorem UnregisterSubWin_children (fuel : Nat) (s : GuiState) (pid cid : WinId)
    (hp : s.parent cid = some pid) :
    (UnregisterSubWin fuel s pid cid).children pid = (s.children pid).erase cid := by
  unfold UnregisterSubWin addInvalidationRect unregisterSubWin_frame Screens_ResetTimeout
  rw [if_neg (by simp [hp])]
  split <;> simp [Invalidate_children]

/-- The destructor resets the focused pointer exactly when the destroyed
window held it. -/
theorem window_t_dtor_focused (fuel : Nat) (s : GuiState) (id : WinId) :
    (window_t_dtor fuel s id).focused
      = if s.focused = some id then none else s.focused := by
  unfold window_t_dtor gui_timers_delete_by_window Screens_ResetTimeout
  by_cases h : s.focused = some id <;>
    cases hp : s.parent id <;>
      simp [h, hp, UnregisterSubWin_focused]

/-- Claim C1: at most one window is ever focused, since focus is the
single static pointer focused_ptr: any two windows reported focused in
the same state are equal; SetFocus on a visible, enabled, not yet
focused window moves the pointer to that window; and destroying the
window that holds focus resets the pointer to null. -/
theorem C1_focus_invariant (s : GuiState) (a b : WinId)
    (ha : IsFocused s a = true) (hb : IsFocused s b = true)
    (s2 : GuiState) (id2 : WinId)
    (hvis : (s2.windows id2).IsVisible = true)
    (hen : (s2.windows id2).flags.enabled = true)
    (hnf : s2.focused ≠ some id2)
    (fuel : Nat) (s3 : GuiState) (id3 : WinId) (hf3 : s3.focused = some id3) :
    a = b
  ∧ (SetFocus s2 id2).focused = some id2
  ∧ (window_t_dtor fuel s3 id3).focused = none := by
  refine ⟨?_, ?_, ?_⟩
  · unfold IsFocused at ha hb
    rw [beq_iff_eq] at ha hb
    rw [ha] at hb
    exact Option.some.inj hb
  · unfold SetFocus
    rw [if_neg (by simp [hvis, hen])]
    rw [if_neg (by simp [hnf])]
    simp [gui_invalidate, WEF_focused, Invalidate_focused]
  · rw [window_t_dtor_focused, if_pos hf3]

/-- Witness for claim C1 at concrete inputs: in a state focusing window
0 both focused windows coincide; SetFocus moves focus to window 2 of
the all-enabled state; destroying window 0 of the focusing state clears
the pointer. -/
theorem C1_witness :
    (0 : WinId) = 0
  ∧ (SetFocus exEnabledState 2).focused = some 2
  ∧ (window_t_dtor 0 exFocusState 0).focused = none :=
  C1_focus_invariant exFocusState 0 0 (by decide) (by decide)
    exEnabledState 2 (by decide) (by decide) (by decide)
    0 exFocusState 0 (by decide)

/-- Claim C2: a CLICK delivered to a window with a parent closes the top
screen of the global screen stack when the close-on-click policy is yes,
and is otherwise re-sent to the parent, the bubble-up chain stopping at
a window with no parent. -/
theorem C2_click (fuel : Nat) (s : GuiState) (id : WinId) :
    (∀ p, s.parent id = some p →
       ((s.windows id).flags.close_on_click = is_closed_on_click_t.yes →
          WindowEventFuel (fuel + 1) s id GUI_event_t.CLICK
            = Screens_Close (logEvent s id GUI_event_t.CLICK))
     ∧ ((s.windows id).flags.close_on_click = is_closed_on_click_t.no →
          WindowEventFuel (fuel + 1) s id GUI_event_t.CLICK
            = WindowEventFuel fuel (logEvent s id GUI_event_t.CLICK) p GUI_event_t.CLICK))
  ∧ (s.parent id = none →
       WindowEventFuel (fuel + 1) s id GUI_event_t.CLICK
         = logEvent s id GUI_event_t.CLICK) := by
  constructor
  · intro p hp
    constructor
    · intro hc
      conv_lhs => rw [WindowEventFuel]
      simp [hp, hc]
    · intro hc
      conv_lhs => rw [WindowEventFuel]
      simp [hp, hc]
  · intro hp
    conv_lhs => rw [WindowEventFuel]
    simp [hp]

/-- Witness for claim C2 at concrete inputs: a click on window 0 with
policy yes pops the screen stack; with policy no it is re-sent to parent
1; a click on a parentless window goes no further than the log. -/
theorem C2_witness :
    WindowEventFuel 1 exClickYesState 0 GUI_event_t.CLICK
      = Screens_Close (logEvent exClickYesState 0 GUI_event_t.CLICK)
  ∧ WindowEventFuel 1 exClickNoState 0 GUI_event_t.CLICK
      = WindowEventFuel 0 (logEvent exClickNoState 0 GUI_event_t.CLICK) 1 GUI_event_t.CLICK
  ∧ WindowEventFuel 1 exState 0 GUI_event_t.CLICK = logEvent exState 0 GUI_event_t.CLICK :=
  ⟨((C2_click 0 exClickYesState 0).1 1 (by decide)).1 (by decide),
   ((C2_click 0 exClickNoState 0).1 1 (by decide)).2 (by decide),
   (C2_click 0 exState 0).2 (by decide)⟩

/-- Claim C6: constructing a window with a non-null parent registers it
into that parent child list via RegisterSubWin (provided the containment
check of RegisterSubWin passes) and leaves the new window marked dirty;
with a null parent no registration is attempted and the window is still
marked dirty. -/
theorem C6_ctor (fuel : Nat) (s : GuiState) (id : WinId) (rc : Rect16)
    (ty : win_type_t) (close : is_closed_on_click_t) :
    (∀ p, Rect16.Contain (GetRectFuel fuel (ctorInit s id (some p) rc ty close) p)
            (GetRectFuel fuel (ctorInit s id (some p) rc ty close) id) = true →
        id ∈ (window_t_ctor fuel s id (some p) rc ty close).children p
      ∧ ((window_t_ctor fuel s id (some p) rc ty close).windows id).flags.invalid = true)
  ∧ ((window_t_ctor fuel s id none rc ty close).children = s.children
     ∧ ((window_t_ctor fuel s id none rc ty close).windows id).flags.invalid = true) := by
  constructor
  · intro p h
    have e : window_t_ctor fuel s id (some p) rc ty close
        = (RegisterSubWin fuel (ctorInit s id (some p) rc ty close) p id).1 := rfl
    rw [e]
    unfold RegisterSubWin
    rw [h, if_neg (show ¬((!true) = true) by simp)]
    constructor
    · split <;> simp [registerSubWin_frame, Screens_ResetTimeout, GuiState.setWin]
    · split <;>
        simp [registerSubWin_frame, Screens_ResetTimeout, GuiState.setWin, ctorInit_windows]
  · constructor
    · show (ctorInit s id none rc ty close).children = s.children
      unfold ctorInit
      rw [Invalidate_children]
    · show ((ctorInit s id none rc ty close).windows id).flags.invalid = true
      rw [ctorInit_windows]

/-- Witness for claim C6 at concrete inputs: constructing window 1 under
parent 0 registers it in the child list of 0 and marks it dirty;
constructing window 1 with no parent changes no child list and marks it
dirty. -/
theorem C6_witness :
    (1 ∈ (window_t_ctor 0 exState 1 (some 0) Rect16.default
            win_type_t.normal is_closed_on_click_t.no).children 0
     ∧ ((window_t_ctor 0 exState 1 (some 0) Rect16.default
            win_type_t.normal is_closed_on_click_t.no).windows 1).flags.invalid = true)
  ∧ ((window_t_ctor 0 exState 1 none Rect16.default
        win_type_t.normal is_closed_on_click_t.no).children = exState.children
     ∧ ((window_t_ctor 0 exState 1 none Rect16.default
          win_type_t.normal is_closed_on_click_t.no).windows 1).flags.invalid = true) :=
  ⟨(C6_ctor 0 exState 1 Rect16.default win_type_t.normal is_closed_on_click_t.no).1
      0 (by decide),
   (C6_ctor 0 exState 1 Rect16.default win_type_t.normal is_closed_on_click_t.no).2⟩

/-- Claim C7: the destructor always cancels the GUI timers bound to the
window, resets the focused pointer exactly when the window held focus,
removes the window from the parent child list when it has a parent, and
resets the screen manager inactivity timeout. -/
theorem C7_dtor (fuel : Nat) (s : GuiState) (id : WinId) :
    (window_t_dtor fuel s id).timerBound id = false
  ∧ (window_t_dtor fuel s id).focused = (if s.focused = some id then none else s.focused)
  ∧ (∀ p, s.parent id = some p →
      (window_t_dtor fuel s id).children p = (s.children p).erase id)
  ∧ s.timeoutResets < (window_t_dtor fuel s id).timeoutResets := by
  refine ⟨?_, window_t_dtor_focused fuel s id, ?_, ?_⟩
  · unfold window_t_dtor gui_timers_delete_by_window Screens_ResetTimeout
    by_cases h : s.focused = some id <;>
      cases hp : s.parent id <;>
        simp [h, hp, UnregisterSubWin_timerBound]
  · intro p hp
    unfold window_t_dtor gui_timers_delete_by_window Screens_ResetTimeout
    by_cases h : s.focused = some id <;>
      simp [h, hp, UnregisterSubWin_children]
  · unfold window_t_dtor gui_timers_delete_by_window Screens_ResetTimeout
    by_cases h : s.focused = some id <;>
      cases hp : s.parent id <;>
        simp [h, hp]
    all_goals exact UnregisterSubWin_timeoutResets_lt fuel _ _ _ _ (Nat.le_of_eq rfl)

/-- Witness for claim C7 at a concrete input: destroying window 1, a
focused child of window 0 with a bound timer, cancels its timer, clears
focus, removes it from the child list of 0 and bumps the timeout reset
counter. -/
theorem C7_witness :
    (window_t_dtor 0 exDtorState 1).timerBound 1 = false
  ∧ (window_t_dtor 0 exDtorState 1).focused
      = (if exDtorState.focused = some 1 then none else exDtorState.focused)
  ∧ (window_t_dtor 0 exDtorState 1).children 0 = (exDtorState.children 0).erase 1
  ∧ exDtorState.timeoutResets < (window_t_dtor 0 exDtorState 1).timeoutResets :=
  ⟨(C7_dtor 0 exDtorState 1).1, (C7_dtor 0 exDtorState 1).2.1,
   (C7_dtor 0 exDtorState 1).2.2.1 0 (by decide), (C7_dtor 0 exDtorState 1).2.2.2⟩
